import Mathlib

/-!
Shallow embedding of the variable storage lowering subsystem of
nuitka/codegen/VariableCodes.py: context access resolution
(_getContextAccess), handle building (getVariableHandle) and declaration
emission (getLocalVariableInitCode), together with the identifier variants
the module imports and the variable-descriptor interface it consumes.
-/

namespace VariableCodes

/-- Data every variable descriptor carries: source name, lowered code name,
mangled name used as a dynamic-namespace key, the sharing / free-need /
late-declaration flags, the declaration type code (which the source queries
with an in-context flag), and the declaration init value code used for
unshared temporaries that need no free. -/
structure VarData where
  name : String
  codeName : String
  mangledName : String
  shared : Bool
  needsFree : Bool
  lateDeclaration : Bool
  declTypeCodeLocal : String
  declTypeCodeInContext : String
  declInitValueCode : String
deriving Repr, DecidableEq

/-- Variable descriptors, one constructor per kind of the data model:
Parameter, Local, ClassVariable, MaybeLocal, ModuleVariable, TempVariable,
plus the two reference kinds: a ClosureReference wrapping another variable and
a TempVariable reference indirecting to another variable (chains of references
are at most two levels deep in the supported contract). -/
inductive Variable where
  | parameterVar (d : VarData)
  | localVar (d : VarData)
  | classVar (d : VarData)
  | maybeLocalVar (d : VarData)
  | moduleVar (d : VarData)
  | tempVar (d : VarData)
  | closureRef (d : VarData) (referenced : Variable)
  | tempRef (d : VarData) (referenced : Variable)
deriving Repr, DecidableEq

/-- Data of a variable, reference kinds included. -/
def Variable.getData : Variable → VarData
  | .parameterVar d | .localVar d | .classVar d | .maybeLocalVar d
  | .moduleVar d | .tempVar d | .closureRef d _ | .tempRef d _ => d

/-- Whether a wrapped variable is a temporary or a temporary reference; a
ClosureReference wrapping such a variable answers isTempVariableReference. -/
def refIsTemp : Variable → Bool
  | .tempVar _ => true
  | .tempRef _ _ => true
  | _ => false

def Variable.isParameterVariable : Variable → Bool
  | .parameterVar _ => true
  | _ => false

def Variable.isLocalVariable : Variable → Bool
  | .localVar _ => true
  | _ => false

def Variable.isClassVariable : Variable → Bool
  | .classVar _ => true
  | _ => false

def Variable.isMaybeLocalVariable : Variable → Bool
  | .maybeLocalVar _ => true
  | _ => false

def Variable.isModuleVariable : Variable → Bool
  | .moduleVar _ => true
  | _ => false

def Variable.isTempVariable : Variable → Bool
  | .tempVar _ => true
  | _ => false

def Variable.isClosureReference : Variable → Bool
  | .closureRef _ _ => true
  | _ => false

/-- Modelled from the spec: the Variables module is not under src/. A
TempVariable reference answers true, and a ClosureReference answers true
exactly when it wraps a TempVariable (the chained-reference case of the data
model). -/
def Variable.isTempVariableReference : Variable → Bool
  | .tempRef _ _ => true
  | .closureRef _ r => refIsTemp r
  | _ => false

def Variable.getName (v : Variable) : String := v.getData.name

def Variable.getCodeName (v : Variable) : String := v.getData.codeName

def Variable.getMangledName (v : Variable) : String := v.getData.mangledName

/-- Modelled from the spec: the Variables module is not under src/. The
sharing flag of a reference is that of the variable it indirects to (the
source asks a ClosureReference whether the TempVariable it wraps is shared). -/
def Variable.isShared : Variable → Bool
  | .closureRef _ r => r.isShared
  | .tempRef _ r => r.isShared
  | v => v.getData.shared

/-- Modelled from the spec: references delegate the free-need flag to the
variable they indirect to. -/
def Variable.getNeedsFree : Variable → Bool
  | .closureRef _ r => r.getNeedsFree
  | .tempRef _ r => r.getNeedsFree
  | v => v.getData.needsFree

/-- Modelled from the spec: references delegate the late-declaration flag to
the variable they indirect to. -/
def Variable.needsLateDeclaration : Variable → Bool
  | .closureRef _ r => r.needsLateDeclaration
  | .tempRef _ r => r.needsLateDeclaration
  | v => v.getData.lateDeclaration

/-- Variable a reference indirects to; on a non-reference this is never
queried by the source, so it is the variable itself. -/
def Variable.getReferenced : Variable → Variable
  | .closureRef _ r => r
  | .tempRef _ r => r
  | v => v

/-- Declaration type code, as queried by the source with the in-context
flag. -/
def Variable.getDeclarationTypeCode (v : Variable) (in_context : Bool) : String :=
  if in_context then v.getData.declTypeCodeInContext else v.getData.declTypeCodeLocal

def Variable.getDeclarationInitValueCode (v : Variable) : String :=
  v.getData.declInitValueCode

/-- Generation contexts: a module context, or a function context carrying the
needsCreation and isGenerator flags of its function, the hasLocalsDict flag of
its function, and the code name of the owning module. -/
inductive Context where
  | module (moduleCodeName : String)
  | function (needsCreation isGenerator hasLocalsDict : Bool) (moduleCodeName : String)
deriving Repr, DecidableEq

def Context.isPythonModule : Context → Bool
  | .module _ => true
  | _ => false

def Context.getModuleCodeName : Context → String
  | .module m => m
  | .function _ _ _ m => m

/-- Modelled from the spec: the Contexts module is not under src/. The source
asks context.getFunction().hasLocalsDict(); a module context has no function,
so the query cannot succeed there and only function contexts carry the flag. -/
def Context.functionHasLocalsDict : Context → Bool
  | .module _ => false
  | .function _ _ h _ => h

/-- Identifier variants, exactly the four classes the source module imports
from its Identifiers module. -/
inductive Identifier where
  | nameIdentifier (hint : String) (name : String) (code : String) (ref_count : Nat)
  | tempObjectIdentifier (var_name : String) (code : String)
  | moduleVariableIdentifier (var_name : String) (module_code_name : String)
  | maybeModuleVariableIdentifier (var_name : String) (module_code_name : String)
deriving Repr, DecidableEq

/-- Fatal aborts of the code generator: a failed assert, or a NameError from
evaluating a global name the module never bound. -/
inductive FatalError where
  | assertionError (message : String)
  | nameError (missing : String)
deriving Repr, DecidableEq

/-- Modelled from the spec: the per-module global-name usage table and
addGlobalVariableNameUsage live in the Contexts module, which is not under
src/. Registration is idempotent (adding the same name twice is a no-op), so
the table is a list and a name is appended only when absent. -/
def addGlobalVariableNameUsage (table : List String) (var_name : String) : List String :=
  if var_name ∈ table then table else table ++ [var_name]

/-- Modelled from the spec: getConstantCode comes from the ConstantCodes
module, which is not under src/. It is the collaborator returning a
target-code expression for the requested constant value, modelled as a fixed
rendering of the name constant. -/
def getConstantCode (constant : String) : String :=
  "_python_str_" ++ constant

/-- Context access resolution of the source: empty path at module level;
inside a function, the path depends on needsCreation, isGenerator and the
force_closure request. -/
def _getContextAccess (context : Context) (force_closure : Bool) : String :=
  match context with
  | .module _ => ""
  | .function needsCreation isGenerator _ _ =>
    if needsCreation then
      if isGenerator then
        if force_closure then "_python_context->common_context->"
        else "_python_context->"
      else
        if force_closure then "_python_context->"
        else ""
    else
      if isGenerator then "_python_context->"
      else ""

/-- Handle building of the source: dispatch on the variable kind, producing an
identifier and the possibly-updated global-name table, or a fatal error. The
shared-closure temporary branch constructs TempVariableIdentifier, a name the
source module never imports, so reaching it raises NameError. -/
def getVariableHandle (context : Context) (table : List String) (var : Variable) :
    Except FatalError Identifier × List String :=
  let var_name := var.getName
  if var.isParameterVariable || var.isLocalVariable ||
     var.isClassVariable ||
     (var.isClosureReference && !var.isTempVariableReference) then
    let from_context := _getContextAccess context var.isClosureReference
    let code := from_context ++ var.getCodeName
    let hint :=
      if var.isParameterVariable then "parameter"
      else if var.isClassVariable then "classvar"
      else if var.isClosureReference then "closure"
      else "localvar"
    (.ok (.nameIdentifier hint var_name code 0), table)
  else if var.isTempVariableReference && var.isClosureReference &&
          var.isShared then
    (.error (.nameError "TempVariableIdentifier"), table)
  else if var.isTempVariableReference then
    let variable1 := var.getReferenced
    let variable2 :=
      if variable1.isTempVariableReference then variable1.getReferenced else variable1
    let from_context :=
      if variable2.needsLateDeclaration then ""
      else _getContextAccess context variable2.isShared
    if variable2.isShared then
      (.ok (.nameIdentifier "tempvar" var_name (from_context ++ variable2.getCodeName) 0),
       table)
    else if !variable2.getNeedsFree then
      (.ok (.tempObjectIdentifier var_name (from_context ++ variable2.getCodeName)), table)
    else
      (.ok (.nameIdentifier "tempvar" var_name (from_context ++ variable2.getCodeName) 0),
       table)
  else if var.isMaybeLocalVariable then
    let table1 := addGlobalVariableNameUsage table var_name
    if context.functionHasLocalsDict then
      (.ok (.maybeModuleVariableIdentifier var_name context.getModuleCodeName), table1)
    else
      (.error (.assertionError "context.getFunction().hasLocalsDict()"), table1)
  else if var.isModuleVariable then
    let table1 := addGlobalVariableNameUsage table var_name
    (.ok (.moduleVariableIdentifier var_name context.getModuleCodeName), table1)
  else
    (.error (.assertionError "variable matches no classified kind"), table)

/-- Value expression handed to a declaration as its initial owned reference;
it offers an export (reference-transferring) rendering and a temporary one. -/
structure InitValue where
  codeExportRef : String
  codeTemporaryRef : String
deriving Repr, DecidableEq

/-- Declaration emission of the source: reject ModuleVariables, build the
declaration head (type code, a separating space unless the type code ends in a
pointer marker, then the code name), then outside a context either the
temporary-variable initializer cases or the cell construction from the name
constant of the mangled name and an optional exported initial value; every
statement ends in the terminator. -/
def getLocalVariableInitCode (var : Variable) (init_from : Option InitValue)
    (in_context : Bool) : Except FatalError String :=
  if var.isModuleVariable then
    .error (.assertionError "not variable.isModuleVariable()")
  else
    let result := var.getDeclarationTypeCode in_context
    let result := if !result.endsWith "*" then result ++ " " else result
    let store_name := var.getMangledName
    let result := result ++ var.getCodeName
    if !in_context then
      if var.isTempVariable then
        if init_from.isSome then
          .error (.assertionError "init_from is None")
        else
          let result :=
            if var.isShared then result ++ "( NULL )"
            else if !var.getNeedsFree then
              result ++ " = " ++ var.getDeclarationInitValueCode
            else result
          .ok (result ++ ";")
      else
        let result := result ++ "( "
        let result := result ++ getConstantCode store_name
        let result :=
          match init_from with
          | some iv => result ++ ", " ++ iv.codeExportRef
          | none => result
        let result := result ++ " )"
        .ok (result ++ ";")
    else
      .ok (result ++ ";")

/-- Declaration head as the source builds it: the declaration type code,
concatenated directly with the code name when the type code ends in the
pointer marker and otherwise joined to it by a single space. -/
def declHead (var : Variable) (in_context : Bool) : String :=
  let tc := var.getDeclarationTypeCode in_context
  if tc.endsWith "*" then tc ++ var.getCodeName
  else tc ++ " " ++ var.getCodeName

/-- Underlying temporary of a temp-variable reference: follow the referenced
chain up to two levels, exactly as the source dereferences. -/
def derefTemp (var : Variable) : Variable :=
  let v1 := var.getReferenced
  if v1.isTempVariableReference then v1.getReferenced else v1


/-- Sample descriptor data used by concrete witnesses. -/
def dSample : VarData :=
  ⟨"x", "var_x", "x", false, false, false, "PyObject *", "PyObject *", "NULL"⟩

/-- C1: the context access resolution returns exactly the 8-case table of
§4.1: a module context yields the empty path for both values of the
force-shared request; a created generator function yields the common
sub-object path under force sharing and the plain context path otherwise; a
created non-generator yields the context path under force sharing and the
empty path otherwise; a non-created generator yields the context path for
both values; a non-created non-generator yields the empty path for both
values. -/
theorem C1_context_access_table (m : String) (hld : Bool) (fs : Bool) :
    _getContextAccess (.module m) fs = "" ∧
    _getContextAccess (.function true true hld m) true =
      "_python_context->common_context->" ∧
    _getContextAccess (.function true true hld m) false = "_python_context->" ∧
    _getContextAccess (.function true false hld m) true = "_python_context->" ∧
    _getContextAccess (.function true false hld m) false = "" ∧
    _getContextAccess (.function false true hld m) fs = "_python_context->" ∧
    _getContextAccess (.function false false hld m) fs = "" := by
  cases fs <;> exact ⟨rfl, rfl, rfl, rfl, rfl, rfl, rfl⟩

/-- C2: on a ClosureReference wrapping a TempVariable that is shared across
closures, the handle builder does not return a NameIdentifier with hint
tempvar and obligation 0: the source constructs TempVariableIdentifier, a name
absent from the module's imports, so the call raises NameError. -/
theorem C2_shared_closure_temp_raises_name_error :
    getVariableHandle (.function true true false "module_m") []
      (.closureRef
        ⟨"tmp", "closure_tmp", "tmp", true, true, false,
         "PyObjectSharedTempVariable ", "PyObjectSharedTempVariable ", "NULL"⟩
        (.tempVar
          ⟨"tmp", "_python_tmp", "tmp", true, true, false,
           "PyObjectSharedTempVariable ", "PyObjectSharedTempVariable ", "NULL"⟩))
      = (.error (.nameError "TempVariableIdentifier"), []) := rfl

/-- C3: for a Parameter, Local, ClassVariable or ClosureReference to a
non-temporary, the handle builder returns a NameIdentifier whose access code
is the access path resolved with the force-shared request equal to the
closure-reference test, concatenated with the variable's code name, with
obligation 0 and display hint parameter, localvar, classvar or closure by
kind; in particular a Local with code name var_y in a non-created
non-generator function context gets access code exactly var_y with hint
localvar. -/
theorem C3_named_variable_handles (ctx : Context) (t : List String) (d : VarData)
    (r : Variable) (h : refIsTemp r = false) :
    getVariableHandle ctx t (.parameterVar d)
      = (.ok (.nameIdentifier "parameter" d.name
          (_getContextAccess ctx false ++ d.codeName) 0), t) ∧
    getVariableHandle ctx t (.localVar d)
      = (.ok (.nameIdentifier "localvar" d.name
          (_getContextAccess ctx false ++ d.codeName) 0), t) ∧
    getVariableHandle ctx t (.classVar d)
      = (.ok (.nameIdentifier "classvar" d.name
          (_getContextAccess ctx false ++ d.codeName) 0), t) ∧
    getVariableHandle ctx t (.closureRef d r)
      = (.ok (.nameIdentifier "closure" d.name
          (_getContextAccess ctx true ++ d.codeName) 0), t) ∧
    getVariableHandle (.function false false false "module_m") t
        (.localVar ⟨"y", "var_y", "y", false, false, false,
          "PyObject *", "PyObject *", "NULL"⟩)
      = (.ok (.nameIdentifier "localvar" "y" "var_y" 0), t) := by
  refine ⟨?_, ?_, ?_, ?_, ?_⟩ <;>
  · simp [getVariableHandle, Variable.isParameterVariable, Variable.isLocalVariable,
      Variable.isClassVariable, Variable.isClosureReference,
      Variable.isTempVariableReference, Variable.getName, Variable.getCodeName,
      Variable.getData, h]
    try rfl

/-- C3 witness: the theorem applied at a module context, an empty table, the
sample data and a Local wrapped variable, whose wrapped kind is not a
temporary. -/
theorem C3_named_variable_handles_witness :
    refIsTemp (.localVar dSample) = false ∧
    (getVariableHandle (.module "module_m") [] (.parameterVar dSample)
      = (.ok (.nameIdentifier "parameter" dSample.name
          (_getContextAccess (.module "module_m") false ++ dSample.codeName) 0), []) ∧
    getVariableHandle (.module "module_m") [] (.localVar dSample)
      = (.ok (.nameIdentifier "localvar" dSample.name
          (_getContextAccess (.module "module_m") false ++ dSample.codeName) 0), []) ∧
    getVariableHandle (.module "module_m") [] (.classVar dSample)
      = (.ok (.nameIdentifier "classvar" dSample.name
          (_getContextAccess (.module "module_m") false ++ dSample.codeName) 0), []) ∧
    getVariableHandle (.module "module_m") [] (.closureRef dSample (.localVar dSample))
      = (.ok (.nameIdentifier "closure" dSample.name
          (_getContextAccess (.module "module_m") true ++ dSample.codeName) 0), []) ∧
    getVariableHandle (.function false false false "module_m") []
        (.localVar ⟨"y", "var_y", "y", false, false, false,
          "PyObject *", "PyObject *", "NULL"⟩)
      = (.ok (.nameIdentifier "localvar" "y" "var_y" 0), [])) :=
  ⟨rfl, C3_named_variable_handles (.module "module_m") [] dSample (.localVar dSample) rfl⟩


/-- C4: for a temp-variable reference that is not the shared-closure case, the
handle builder follows the referenced chain up to two levels to the underlying
temporary; the access path is empty when that variable needs late declaration
and otherwise resolved with the force-shared request equal to that variable's
sharing flag; the result is a NameIdentifier with hint tempvar and obligation
0 when the underlying variable is shared, a TempObjectIdentifier when it is
unshared and needs no free, and a NameIdentifier with hint tempvar and
obligation 0 otherwise. -/
theorem C4_temp_reference_handle (ctx : Context) (t : List String) (v : Variable)
    (h1 : v.isTempVariableReference = true)
    (h2 : ¬ (v.isClosureReference = true ∧ v.isShared = true)) :
    getVariableHandle ctx t v =
      (let u := derefTemp v
       let from_context :=
         if u.needsLateDeclaration then "" else _getContextAccess ctx u.isShared
       if u.isShared then
         (.ok (.nameIdentifier "tempvar" v.getName (from_context ++ u.getCodeName) 0), t)
       else if !u.getNeedsFree then
         (.ok (.tempObjectIdentifier v.getName (from_context ++ u.getCodeName)), t)
       else
         (.ok (.nameIdentifier "tempvar" v.getName (from_context ++ u.getCodeName) 0),
          t)) := by
  cases v with
  | closureRef d r =>
    have hsh : r.isShared = false := by
      cases hc : r.isShared with
      | false => rfl
      | true => exact absurd ⟨rfl, hc⟩ h2
    simp only [Variable.isTempVariableReference] at h1
    simp [getVariableHandle, derefTemp, Variable.isParameterVariable,
      Variable.isLocalVariable, Variable.isClassVariable, Variable.isClosureReference,
      Variable.isTempVariableReference, Variable.getReferenced, Variable.isShared,
      h1, hsh]
  | tempRef d r =>
    simp [getVariableHandle, derefTemp, Variable.isParameterVariable,
      Variable.isLocalVariable, Variable.isClassVariable, Variable.isClosureReference,
      Variable.isTempVariableReference, Variable.getReferenced]
  | parameterVar d => simp [Variable.isTempVariableReference] at h1
  | localVar d => simp [Variable.isTempVariableReference] at h1
  | classVar d => simp [Variable.isTempVariableReference] at h1
  | maybeLocalVar d => simp [Variable.isTempVariableReference] at h1
  | moduleVar d => simp [Variable.isTempVariableReference] at h1
  | tempVar d => simp [Variable.isTempVariableReference] at h1

/-- C4 witness: the theorem applied at a module context to a temp reference
chain of depth two ending in an unshared temporary needing no free. -/
theorem C4_temp_reference_handle_witness :
    (Variable.tempRef dSample
        (.tempRef dSample (.tempVar dSample))).isTempVariableReference = true ∧
    ¬ ((Variable.tempRef dSample
        (.tempRef dSample (.tempVar dSample))).isClosureReference = true ∧
       (Variable.tempRef dSample
        (.tempRef dSample (.tempVar dSample))).isShared = true) ∧
    getVariableHandle (.module "module_m") []
        (.tempRef dSample (.tempRef dSample (.tempVar dSample))) =
      (let u := derefTemp (.tempRef dSample (.tempRef dSample (.tempVar dSample)))
       let from_context :=
         if u.needsLateDeclaration then ""
         else _getContextAccess (.module "module_m") u.isShared
       if u.isShared then
         (.ok (.nameIdentifier "tempvar"
            (Variable.tempRef dSample
              (.tempRef dSample (.tempVar dSample))).getName
            (from_context ++ u.getCodeName) 0), [])
       else if !u.getNeedsFree then
         (.ok (.tempObjectIdentifier
            (Variable.tempRef dSample
              (.tempRef dSample (.tempVar dSample))).getName
            (from_context ++ u.getCodeName)), [])
       else
         (.ok (.nameIdentifier "tempvar"
            (Variable.tempRef dSample
              (.tempRef dSample (.tempVar dSample))).getName
            (from_context ++ u.getCodeName) 0), [])) :=
  ⟨rfl, by decide,
   C4_temp_reference_handle (.module "module_m") []
     (.tempRef dSample (.tempRef dSample (.tempVar dSample))) rfl (by decide)⟩


/-- C5: for a non-temporary, non-module variable declared outside a context,
the emitted statement is the declaration head followed by a construction
expression holding the name constant for the mangled name and, exactly when an
initial value is supplied, one exported copy of it as a second argument. -/
theorem C5_nontemp_construction (v : Variable) (iv : InitValue)
    (hm : v.isModuleVariable = false) (ht : v.isTempVariable = false) :
    getLocalVariableInitCode v (some iv) false
      = .ok (declHead v false ++ "( " ++ getConstantCode v.getMangledName ++
          ", " ++ iv.codeExportRef ++ " )" ++ ";") ∧
    getLocalVariableInitCode v none false
      = .ok (declHead v false ++ "( " ++ getConstantCode v.getMangledName ++
          " )" ++ ";") := by
  refine ⟨?_, ?_⟩ <;>
  · by_cases hic : (v.getDeclarationTypeCode false).endsWith "*" <;>
      simp [getLocalVariableInitCode, declHead, hm, ht, hic]

/-- C5 witness: the theorem applied to a Local variable with the sample data
and a concrete initial value. -/
theorem C5_nontemp_construction_witness :
    (Variable.localVar dSample).isModuleVariable = false ∧
    (Variable.localVar dSample).isTempVariable = false ∧
    (getLocalVariableInitCode (.localVar dSample) (some ⟨"_tmp_init", "_tmp_init"⟩) false
      = .ok (declHead (.localVar dSample) false ++ "( " ++
          getConstantCode (Variable.localVar dSample).getMangledName ++
          ", " ++ InitValue.codeExportRef ⟨"_tmp_init", "_tmp_init"⟩ ++ " )" ++ ";") ∧
    getLocalVariableInitCode (.localVar dSample) none false
      = .ok (declHead (.localVar dSample) false ++ "( " ++
          getConstantCode (Variable.localVar dSample).getMangledName ++
          " )" ++ ";")) :=
  ⟨rfl, rfl,
   C5_nontemp_construction (.localVar dSample) ⟨"_tmp_init", "_tmp_init"⟩ rfl rfl⟩

/-- C6: a TempVariable declared outside a context gets a null-sentinel
initializer when shared, otherwise a default-value initializer when it needs
no free, and otherwise a bare declaration; every statement ends in the
terminator. -/
theorem C6_temp_initializers (d : VarData) :
    getLocalVariableInitCode (.tempVar d) none false
      = .ok ((if d.shared then declHead (.tempVar d) false ++ "( NULL )"
              else if !d.needsFree then
                declHead (.tempVar d) false ++ " = " ++ d.declInitValueCode
              else declHead (.tempVar d) false) ++ ";") := by
  cases hs : d.shared <;> cases hf : d.needsFree <;>
    by_cases hic : ((Variable.tempVar d).getDeclarationTypeCode false).endsWith "*" <;>
      simp [getLocalVariableInitCode, declHead, Variable.isModuleVariable,
        Variable.isTempVariable, Variable.isShared, Variable.getNeedsFree,
        Variable.getData, Variable.getDeclarationInitValueCode, hs, hf, hic]

/-- Tail the source appends between the declaration head and the terminator:
empty inside a context, the temporary-initializer cases for a TempVariable,
and the construction expression otherwise. -/
def declTail (v : Variable) (init_from : Option InitValue) (in_context : Bool) :
    String :=
  if in_context then ""
  else if v.isTempVariable then
    if v.isShared then "( NULL )"
    else if !v.getNeedsFree then " = " ++ v.getDeclarationInitValueCode
    else ""
  else
    "( " ++ getConstantCode v.getMangledName ++
      (match init_from with
       | some iv => ", " ++ iv.codeExportRef
       | none => "") ++ " )"

/-- Shape lemma: on every accepted input the emitted statement is the
declaration head, a tail, and the terminator. -/
theorem initCode_shape (v : Variable) (init_from : Option InitValue) (ic : Bool)
    (hm : v.isModuleVariable = false)
    (ht : v.isTempVariable = true → init_from = none) :
    getLocalVariableInitCode v init_from ic
      = .ok (declHead v ic ++ declTail v init_from ic ++ ";") := by
  cases ic with
  | true =>
    by_cases hic : (v.getDeclarationTypeCode true).endsWith "*" <;>
      simp_all [getLocalVariableInitCode, declHead, declTail,
        String.append_assoc, String.append_empty]
  | false =>
    by_cases hv : v.isTempVariable = true
    · have hnone := ht hv
      subst hnone
      by_cases hic : (v.getDeclarationTypeCode false).endsWith "*" <;>
        by_cases hs : v.isShared = true <;>
        by_cases hf : v.getNeedsFree = true <;>
          simp_all [getLocalVariableInitCode, declHead, declTail,
            String.append_assoc, String.append_empty]
    · cases init_from <;>
        by_cases hic : (v.getDeclarationTypeCode false).endsWith "*" <;>
          simp_all [getLocalVariableInitCode, declHead, declTail,
            String.append_assoc, String.append_empty]

/-- C7: every accepted declaration begins with the declaration head, the type
code joined to the code name by a single space unless the type code ends in
the pointer marker; inside a context the statement is exactly the head and the
terminator, with no initializer; and every statement ends in the terminator. -/
theorem C7_declaration_head (v : Variable) (init_from : Option InitValue) (ic : Bool)
    (hm : v.isModuleVariable = false)
    (ht : v.isTempVariable = true → init_from = none) :
    (∃ mid, getLocalVariableInitCode v init_from ic
        = .ok (declHead v ic ++ mid ++ ";")) ∧
    (ic = true → getLocalVariableInitCode v init_from ic
        = .ok (declHead v ic ++ ";")) := by
  refine ⟨⟨declTail v init_from ic, initCode_shape v init_from ic hm ht⟩, ?_⟩
  intro hic
  subst hic
  have h := initCode_shape v init_from true hm ht
  simpa [declTail, String.append_empty] using h

/-- C7 witness: the theorem applied to a ClassVariable with the sample data,
no initial value, declared inside a context. -/
theorem C7_declaration_head_witness :
    (Variable.classVar dSample).isModuleVariable = false ∧
    ((Variable.classVar dSample).isTempVariable = true →
      (none : Option InitValue) = none) ∧
    ((∃ mid, getLocalVariableInitCode (.classVar dSample) none true
        = .ok (declHead (.classVar dSample) true ++ mid ++ ";")) ∧
     (true = true → getLocalVariableInitCode (.classVar dSample) none true
        = .ok (declHead (.classVar dSample) true ++ ";"))) :=
  ⟨rfl, fun _ => rfl,
   C7_declaration_head (.classVar dSample) none true rfl (fun _ => rfl)⟩

/-- Sample data of a shared temporary, used by concrete evaluations. -/
def dSharedTemp : VarData :=
  ⟨"tmp_s", "_python_tmp_s", "tmp_s", true, true, false,
   "PyObjectSharedTempVariable ", "PyObjectSharedTempVariable ", "NULL"⟩

/-- C8: the handle builder aborts on a variable matching none of the
classified kinds (a raw TempVariable descriptor falls through every dispatch
test), and the declaration emitter aborts on a ModuleVariable and on a
TempVariable with a supplied initial value; but the final clause of the claim
fails: a classified, invariant-satisfying input, the ClosureReference wrapping
a shared TempVariable, also aborts, with the NameError of the missing
TempVariableIdentifier import. -/
theorem C8_fatal_aborts (ctx : Context) (t : List String) (d : VarData)
    (init : Option InitValue) (iv : InitValue) (ic : Bool) :
    getVariableHandle ctx t (.tempVar d)
      = (.error (.assertionError "variable matches no classified kind"), t) ∧
    getLocalVariableInitCode (.moduleVar d) init ic
      = .error (.assertionError "not variable.isModuleVariable()") ∧
    getLocalVariableInitCode (.tempVar d) (some iv) false
      = .error (.assertionError "init_from is None") ∧
    (getVariableHandle (.function false true true "module_n") []
        (.closureRef dSample (.tempVar dSharedTemp))).1
      = .error (.nameError "TempVariableIdentifier") := by
  refine ⟨rfl, ?_, ?_, rfl⟩
  · simp [getLocalVariableInitCode, Variable.isModuleVariable]
  · simp [getLocalVariableInitCode, Variable.isModuleVariable,
      Variable.isTempVariable]

/-- C9: the handle builder leaves the global-name table untouched except in
the MaybeLocal and ModuleVariable cases, where it registers the variable's
source name and returns a MaybeModuleVariableIdentifier or a
ModuleVariableIdentifier routed through the owning module's code name; in
particular a ModuleVariable named x handled in a module context yields the
ModuleVariableIdentifier for x and the table gains x. -/
theorem C9_global_name_side_effects (ctx ctx2 : Context) (t : List String)
    (v : Variable) (d : VarData)
    (h1 : v.isMaybeLocalVariable = false) (h2 : v.isModuleVariable = false)
    (h3 : ctx2.functionHasLocalsDict = true) :
    (getVariableHandle ctx t v).2 = t ∧
    getVariableHandle ctx t (.moduleVar d)
      = (.ok (.moduleVariableIdentifier d.name ctx.getModuleCodeName),
         addGlobalVariableNameUsage t d.name) ∧
    (getVariableHandle ctx t (.maybeLocalVar d)).2
      = addGlobalVariableNameUsage t d.name ∧
    getVariableHandle ctx2 t (.maybeLocalVar d)
      = (.ok (.maybeModuleVariableIdentifier d.name ctx2.getModuleCodeName),
         addGlobalVariableNameUsage t d.name) ∧
    getVariableHandle (.module "module_m") []
        (.moduleVar ⟨"x", "module_var_x", "x", false, false, false,
          "PyObject *", "PyObject *", "NULL"⟩)
      = (.ok (.moduleVariableIdentifier "x" "module_m"), ["x"]) ∧
    "x" ∈ (getVariableHandle (.module "module_m") []
        (.moduleVar ⟨"x", "module_var_x", "x", false, false, false,
          "PyObject *", "PyObject *", "NULL"⟩)).2 := by
  refine ⟨?_, ?_, ?_, ?_, rfl, List.mem_singleton_self "x"⟩
  · cases v with
    | parameterVar d2 => rfl
    | localVar d2 => rfl
    | classVar d2 => rfl
    | maybeLocalVar d2 => simp [Variable.isMaybeLocalVariable] at h1
    | moduleVar d2 => simp [Variable.isModuleVariable] at h2
    | tempVar d2 => rfl
    | closureRef d2 r =>
      unfold getVariableHandle
      simp only [Variable.isParameterVariable, Variable.isLocalVariable,
        Variable.isClassVariable, Variable.isClosureReference,
        Variable.isTempVariableReference, Variable.isMaybeLocalVariable,
        Variable.isModuleVariable]
      split_ifs <;> first | rfl | exact (‹False›).elim
    | tempRef d2 r =>
      unfold getVariableHandle
      simp only [Variable.isParameterVariable, Variable.isLocalVariable,
        Variable.isClassVariable, Variable.isClosureReference,
        Variable.isTempVariableReference, Variable.isMaybeLocalVariable,
        Variable.isModuleVariable]
      split_ifs <;> rfl
  · simp [getVariableHandle, Variable.isParameterVariable, Variable.isLocalVariable,
      Variable.isClassVariable, Variable.isClosureReference,
      Variable.isTempVariableReference, Variable.isMaybeLocalVariable,
      Variable.isModuleVariable, Variable.getName, Variable.getData]
  · cases hld : ctx.functionHasLocalsDict <;>
      simp [getVariableHandle, Variable.isParameterVariable,
        Variable.isLocalVariable, Variable.isClassVariable,
        Variable.isClosureReference, Variable.isTempVariableReference,
        Variable.isMaybeLocalVariable, Variable.getName, Variable.getData, hld]
  · simp [getVariableHandle, Variable.isParameterVariable, Variable.isLocalVariable,
      Variable.isClassVariable, Variable.isClosureReference,
      Variable.isTempVariableReference, Variable.isMaybeLocalVariable,
      Variable.getName, Variable.getData, h3]

/-- C9 witness: the theorem applied at a module context, a function context
with a dynamic local namespace, a one-name table and a Parameter variable. -/
theorem C9_global_name_side_effects_witness :
    (Variable.parameterVar dSample).isMaybeLocalVariable = false ∧
    (Variable.parameterVar dSample).isModuleVariable = false ∧
    (Context.function false false true "module_m").functionHasLocalsDict = true ∧
    ((getVariableHandle (.module "module_m") ["g"] (.parameterVar dSample)).2 = ["g"] ∧
    getVariableHandle (.module "module_m") ["g"] (.moduleVar dSample)
      = (.ok (.moduleVariableIdentifier dSample.name
          (Context.module "module_m").getModuleCodeName),
         addGlobalVariableNameUsage ["g"] dSample.name) ∧
    (getVariableHandle (.module "module_m") ["g"] (.maybeLocalVar dSample)).2
      = addGlobalVariableNameUsage ["g"] dSample.name ∧
    getVariableHandle (.function false false true "module_m") ["g"]
        (.maybeLocalVar dSample)
      = (.ok (.maybeModuleVariableIdentifier dSample.name
          (Context.function false false true "module_m").getModuleCodeName),
         addGlobalVariableNameUsage ["g"] dSample.name) ∧
    getVariableHandle (.module "module_m") []
        (.moduleVar ⟨"x", "module_var_x", "x", false, false, false,
          "PyObject *", "PyObject *", "NULL"⟩)
      = (.ok (.moduleVariableIdentifier "x" "module_m"), ["x"]) ∧
    "x" ∈ (getVariableHandle (.module "module_m") []
        (.moduleVar ⟨"x", "module_var_x", "x", false, false, false,
          "PyObject *", "PyObject *", "NULL"⟩)).2) :=
  ⟨rfl, rfl, rfl,
   C9_global_name_side_effects (.module "module_m")
     (.function false false true "module_m") ["g"] (.parameterVar dSample)
     dSample rfl rfl rfl⟩

/-- Registration always leaves the registered name in the table. -/
theorem mem_addGlobalVariableNameUsage (t : List String) (n : String) :
    n ∈ addGlobalVariableNameUsage t n := by
  unfold addGlobalVariableNameUsage
  split
  · assumption
  · simp

/-- C10: handling a MaybeLocal variable in a function context without a
dynamic local namespace registers the variable's name in the global-name
table and only then fails the assert, so the abort leaves the table already
holding the name: the failure is not atomic with respect to the table. -/
theorem C10_maybelocal_abort_mutates_table (nc ig : Bool) (m : String)
    (t : List String) (d : VarData) :
    getVariableHandle (.function nc ig false m) t (.maybeLocalVar d)
      = (.error (.assertionError "context.getFunction().hasLocalsDict()"),
         addGlobalVariableNameUsage t d.name) ∧
    d.name ∈ (getVariableHandle (.function nc ig false m) t (.maybeLocalVar d)).2 := by
  have heq : getVariableHandle (.function nc ig false m) t (.maybeLocalVar d)
      = (.error (.assertionError "context.getFunction().hasLocalsDict()"),
         addGlobalVariableNameUsage t d.name) := by
    simp [getVariableHandle, Variable.isParameterVariable, Variable.isLocalVariable,
      Variable.isClassVariable, Variable.isClosureReference,
      Variable.isTempVariableReference, Variable.isMaybeLocalVariable,
      Variable.getName, Variable.getData, Context.functionHasLocalsDict]
  exact ⟨heq, by rw [heq]; exact mem_addGlobalVariableNameUsage t d.name⟩

end VariableCodes
